import Mathlib

/-!
Shallow embedding of the rule engine in `src/main.py` (tokenizer,
recursive-descent parser, attribute catalog with validation, function
registry, tree-walking evaluator).

Modelling conventions:
* Python runtime values that flow through the engine are modelled by `Value`.
  Python `float`s are modelled as exact rationals (`Rat`); IEEE-754 rounding
  is not modelled (no claim exercises float arithmetic).
* Python exceptions are modelled by `PyError`: `ruleErr` is
  `RuleValidationError`, `attrErr` is `AttributeValidationError`, and
  `typeErr` stands for any other runtime exception (e.g. `TypeError`).
  Fallible code returns `Except PyError _`.
* Python `dict`s (attribute catalog, function registry, data record) are
  modelled as association lists; registration prepends, lookup takes the
  first hit, which matches dict overwrite-on-rewrite semantics.
* `re.match` (only reachable through the unused `pattern` constraint) is
  modelled as an uninterpreted boolean oracle stored in the engine.
* `datetime.now().date()` (the `today` builtin) is modelled by a date value
  supplied when the engine is constructed, making wall-clock time an
  explicit input.
-/

/-- The `Operator` enum of the source. -/
inductive Operator where
  | AND | OR | GT | LT | EQ | NE | GTE | LTE | IN | NOT_IN
deriving DecidableEq, Repr

/-- The Python `type` objects used as `AttributeDefinition.data_type`
(the source only ever uses `int` and `str`; `float` is included since the
engine's values include floats). -/
inductive DType where
  | intT | strT | floatT
deriving DecidableEq, Repr

/-- `DType.name` is Python's `type.__name__`, used in error messages. -/
def DType.name : DType → String
  | .intT => "int"
  | .strT => "str"
  | .floatT => "float"

/-- Python exceptions raised by the engine: `RuleValidationError`,
`AttributeValidationError`, and any other runtime error (`TypeError`, ...). -/
inductive PyError where
  | ruleErr (msg : String)
  | attrErr (msg : String)
  | typeErr (msg : String)
deriving DecidableEq, Repr

/-- `str(e)`: the message carried by an exception. -/
def PyError.msg : PyError → String
  | .ruleErr m => m
  | .attrErr m => m
  | .typeErr m => m

/-- A processed token (`tokenize` output): Python `str`, `int` or `float`. -/
inductive Tok where
  | str (s : String)
  | int (n : Int)
  | float (q : Rat)
deriving DecidableEq, Repr

/-- A Python runtime value flowing through evaluation and validation. -/
inductive Value where
  | intV (n : Int)
  | floatV (q : Rat)
  | strV (s : String)
  | listV (vs : List Value)
  | dateV (d : Int)
deriving Repr

mutual
/-- The AST `Node` dataclass, as the closed tagged union the three
`NodeType` tags make of it: `COMPARISON` uses `field`/`operator`/`value`,
`OPERATOR` uses `operator`/`left`/`right`, `FUNCTION` uses
`function`/`args`.  Fields of the dataclass unused by a tag are dropped. -/
inductive Node where
  | comparison (field : String) (operator : Operator) (value : Tok)
  | operator (operator : Operator) (left : Node) (right : Node)
  | function (function : String) (args : List Arg)

/-- A function-call argument: a raw token or a nested `Node`. -/
inductive Arg where
  | tok (t : Tok)
  | node (n : Node)
end

/-- The `AttributeDefinition` dataclass.  Constraints are the ordered
key/value pairs of the Python constraints dict (`None` when absent). -/
structure AttributeDefinition where
  name : String
  data_type : DType
  constraints : Option (List (String × Value)) := none
  description : String := ""
  required : Bool := true

/-- The `RuleEngine` instance state: attribute catalog and function
registry, plus the two modelled external effects (see module comment). -/
structure RuleEngine where
  attribute_catalog : List (String × AttributeDefinition)
  function_registry : List (String × (List Value → Except PyError Value))
  reMatch : String → String → Bool

/- ------------------------------------------------------------------
Character/string helpers (kept on `List Char` so that concrete proofs
reduce through plain list operations).
------------------------------------------------------------------ -/

/-- Python `str.strip()` (whitespace at both ends). -/
def pyStrip (s : String) : String :=
  String.mk (((s.toList.dropWhile Char.isWhitespace).reverse.dropWhile
    Char.isWhitespace).reverse)

/-- ASCII upper-casing, Python `str.upper()` restricted to ASCII (all
operator keywords are ASCII). -/
def pyUpper (s : String) : String :=
  String.mk (s.toList.map fun c =>
    if 'a' ≤ c ∧ c ≤ 'z' then Char.ofNat (c.toNat - 32) else c)

/-- Does the string start with character `c` (Python `startswith`)? -/
def headIs (s : String) (c : Char) : Bool :=
  match s.toList with
  | [] => false
  | d :: _ => d = c

/-- Does the string end with character `c` (Python `endswith`)? -/
def lastIs (s : String) (c : Char) : Bool :=
  match s.toList.reverse with
  | [] => false
  | d :: _ => d = c

/-- Python `token[1:-1]`. -/
def dropEnds (s : String) : String :=
  String.mk ((s.toList.drop 1).reverse.drop 1).reverse

/-- Python `token[:-1]`. -/
def dropLastChar (s : String) : String :=
  String.mk (s.toList.reverse.drop 1).reverse

/-- Python `'(' in token`. -/
def strHasChar (s : String) (c : Char) : Bool := s.toList.contains c

/-- Digits of a nonnegative run, as a `Nat`. -/
def digitsToNat (ds : List Char) : Nat :=
  ds.foldl (fun acc c => 10 * acc + (c.toNat - 48)) 0

/-- Python `int(token)` on a string: optional surrounding whitespace,
optional sign, then a nonempty digit run (digit-group underscores are not
modelled; no rule string in the repository uses them). -/
def pyInt? (s : String) : Option Int :=
  let t := (pyStrip s).toList
  let (sign, ds) : Int × List Char :=
    match t with
    | '-' :: rest => (-1, rest)
    | '+' :: rest => (1, rest)
    | _ => (1, t)
  if ds ≠ [] ∧ ds.all Char.isDigit then some (sign * (digitsToNat ds : Int))
  else none

/-- Python `float(token)` on a string, as an exact rational:
optional sign, `digits[.digits]` or `.digits`, optional exponent
(`inf`/`nan` and underscores are not modelled; unreachable from claims). -/
def pyFloat? (s : String) : Option Rat :=
  let t := (pyStrip s).toList
  let (sign, t₁) : Rat × List Char :=
    match t with
    | '-' :: rest => (-1, rest)
    | '+' :: rest => (1, rest)
    | _ => (1, t)
  let mant := t₁.takeWhile (fun c => c ≠ 'e' ∧ c ≠ 'E')
  let rest := t₁.drop mant.length
  let ip := mant.takeWhile (· ≠ '.')
  let hasDot := mant.length > ip.length
  let fp := mant.drop (ip.length + 1)
  let expOk : Option Int :=
    match rest with
    | [] => some 0
    | _ :: es =>
      let (esign, eds) : Int × List Char :=
        match es with
        | '-' :: r => (-1, r)
        | '+' :: r => (1, r)
        | _ => (1, es)
      if eds ≠ [] ∧ eds.all Char.isDigit then some (esign * (digitsToNat eds : Int))
      else none
  if (ip ++ fp) ≠ [] ∧ ip.all Char.isDigit ∧ fp.all Char.isDigit ∧
      (hasDot ∨ rest ≠ []) then
    match expOk with
    | some e =>
      let base : Rat := (digitsToNat (ip ++ fp) : Rat) / (10 : Rat) ^ fp.length
      some (sign * base * (10 : Rat) ^ e)
    | none => none
  else none

/-- Python `int(float)`: truncation toward zero. -/
def ratTrunc (q : Rat) : Int := q.num / (q.den : Int)

/-- Python `str(float)` for the rationals our floats are: exact decimal
when the denominator divides a power of ten, with at least one digit after
the point (`str(30.0) = "30.0"`).  (Shortest-roundtrip IEEE formatting is
not modelled; this path is exercised by no claim.) -/
def ratPyRepr (q : Rat) : String :=
  let k := ((List.range 31).find? fun k => (q * (10 : Rat) ^ k).den = 1).getD 0
  let n := (q * (10 : Rat) ^ k).num
  let sign := if n < 0 then "-" else ""
  let ds := toString n.natAbs
  let ds := if ds.toList.length ≤ k then
      String.mk (List.replicate (k + 1 - ds.toList.length) '0') ++ ds else ds
  let l := ds.toList.length
  if k = 0 then sign ++ ds ++ ".0"
  else sign ++ String.mk (ds.toList.take (l - k)) ++ "." ++
    String.mk (ds.toList.drop (l - k))

mutual
/-- Python `repr(value)` (string escaping inside `repr` of a `str` is not
modelled: no engine string contains quotes once tokenized). -/
def pyRepr : Value → String
  | .intV n => toString n
  | .floatV q => ratPyRepr q
  | .strV s => "'" ++ s ++ "'"
  | .listV vs => "[" ++ String.intercalate ", " (pyReprList vs) ++ "]"
  | .dateV d => "datetime.date(" ++ toString d ++ ")"

/-- `repr` of each element of a list. -/
def pyReprList : List Value → List String
  | [] => []
  | v :: rest => pyRepr v :: pyReprList rest
end

/-- Python `str(value)` (`str` of a list is `repr` of the list). -/
def pyStr : Value → String
  | .strV s => s
  | v => pyRepr v

/- ------------------------------------------------------------------
Python value semantics: equality, ordering, membership, truthiness.
------------------------------------------------------------------ -/

mutual
/-- Python `==` between engine values (numeric cross-type equality holds;
values of unrelated types compare unequal, never raising). -/
def pyEq : Value → Value → Bool
  | .intV a, .intV b => a == b
  | .intV a, .floatV q => (a : Rat) == q
  | .floatV q, .intV b => q == (b : Rat)
  | .floatV a, .floatV b => a == b
  | .strV a, .strV b => a == b
  | .dateV a, .dateV b => a == b
  | .listV as, .listV bs => pyEqList as bs
  | _, _ => false

/-- Elementwise Python `==` of two lists. -/
def pyEqList : List Value → List Value → Bool
  | [], [] => true
  | a :: as, b :: bs => pyEq a b && pyEqList as bs
  | _, _ => false
end

/-- Three-way comparison from a decidable strict order. -/
def cmp3 {α : Type} [LT α] [DecidableRel ((· < ·) : α → α → Prop)]
    (a b : α) : Ordering :=
  if a < b then .lt else if b < a then .gt else .eq

/-- Lexicographic comparison of character lists (Python string ordering
by code point). -/
def charListCmp : List Char → List Char → Ordering
  | [], [] => .eq
  | [], _ :: _ => .lt
  | _ :: _, [] => .gt
  | a :: as, b :: bs =>
    if a < b then .lt else if b < a then .gt else charListCmp as bs

/-- Python `<`/`>` ordering between engine values; `none` models the
`TypeError` raised on unorderable operand types.  (List-versus-list
ordering is not modelled — no reachable comparison orders two lists.) -/
def pyCompare : Value → Value → Option Ordering
  | .intV a, .intV b => some (cmp3 a b)
  | .intV a, .floatV q => some (cmp3 (a : Rat) q)
  | .floatV q, .intV b => some (cmp3 q (b : Rat))
  | .floatV a, .floatV b => some (cmp3 a b)
  | .strV a, .strV b => some (charListCmp a.toList b.toList)
  | .dateV a, .dateV b => some (cmp3 a b)
  | _, _ => none

/-- Is `sub` a substring of `container` (Python `sub in container` on
strings)? -/
def strContainsSub (container sub : String) : Bool :=
  (List.range (container.toList.length + 1)).any fun i =>
    (container.toList.drop i).take sub.toList.length == sub.toList

/-- Python `x in container`: list membership via `==`, substring test on
strings, `TypeError` on non-containers. -/
def pyIn (x container : Value) : Except PyError Bool :=
  match container with
  | .listV vs => .ok (vs.any (pyEq x))
  | .strV s =>
    match x with
    | .strV sub => .ok (strContainsSub s sub)
    | _ => .error (.typeErr "'in <string>' requires string as left operand")
  | _ => .error (.typeErr "argument of type is not iterable")

/-- Python `bool(value)` truthiness. -/
def truthy : Value → Bool
  | .intV n => n != 0
  | .floatV q => q != 0
  | .strV s => s != ""
  | .listV vs => !vs.isEmpty
  | .dateV _ => true

/-- A processed token rendered by `str()` (used in f-string messages). -/
def tokPyStr : Tok → String
  | .str s => s
  | .int n => toString n
  | .float q => ratPyRepr q

/-- The runtime value a literal token denotes. -/
def tokToValue : Tok → Value
  | .str s => .strV s
  | .int n => .intV n
  | .float q => .floatV q

/-- Python `==` between processed tokens (numeric cross-type equality, as
`list.index` uses). -/
def tokEq : Tok → Tok → Bool
  | .str a, .str b => a == b
  | .int a, .int b => a == b
  | .float a, .float b => a == b
  | .int a, .float b => (a : Rat) == b
  | .float a, .int b => a == (b : Rat)
  | _, _ => false

/- ------------------------------------------------------------------
Tokenizer (`RuleEngine.tokenize`).
------------------------------------------------------------------ -/

/-- A character the first regex alternative `[^\s"'()]+` accepts. -/
def isRunChar (c : Char) : Bool :=
  ¬ c.isWhitespace ∧ c ≠ '"' ∧ c ≠ '\'' ∧ c ≠ '(' ∧ c ≠ ')'

/-- The raw-token scan, faithful to
`re.findall` over the alternation `[^\s"'()]+ | "[^"]*" | '[^']*' | [()]`:
maximal unquoted runs, whole quoted substrings (up to the next matching
quote), single parenthesis characters; characters at which no alternative
can match (whitespace, a quote with no later closing quote) are skipped. -/
def rawTokensAux : Nat → List Char → List String
  | 0, _ => []
  | _ + 1, [] => []
  | fuel + 1, c :: cs =>
    if c.isWhitespace then rawTokensAux fuel cs
    else if c = '(' ∨ c = ')' then String.mk [c] :: rawTokensAux fuel cs
    else if c = '"' ∨ c = '\'' then
      let body := cs.takeWhile (· ≠ c)
      if body.length < cs.length then
        String.mk (c :: body ++ [c]) ::
          rawTokensAux fuel (cs.drop (body.length + 1))
      else rawTokensAux fuel cs
    else
      String.mk (c :: cs.takeWhile isRunChar) ::
        rawTokensAux fuel (cs.drop ((cs.takeWhile isRunChar).length))

/-- The raw-token scan on a whole character list.  Every
`rawTokensAux` step consumes at least one character, so fuel equal to
the input length always suffices and the zero-fuel arm is unreachable. -/
def rawTokens (l : List Char) : List String := rawTokensAux l.length l

/-- Is the raw token itself a quoted string (`startswith`/`endswith` a
quote character, as the source tests)? -/
def isQuotedTok (t : String) : Bool :=
  (headIs t '"' && lastIs t '"') || (headIs t '\'' && lastIs t '\'')

/-- The per-token normalization applied when no fusion/quote case fires:
upper-case logical keywords, comparison symbols kept, then numeric
interpretation (`float` if the token contains a dot, else `int`), keeping
the token as a plain string when parsing fails. -/
def classify (t : String) : Tok :=
  if pyUpper t = "AND" ∨ pyUpper t = "OR" ∨ pyUpper t = "IN" ∨
      pyUpper t = "NOT IN" then .str (pyUpper t)
  else if t = ">" ∨ t = "<" ∨ t = "=" ∨ t = "!=" ∨ t = ">=" ∨ t = "<=" then
    .str t
  else if strHasChar t '.' then
    match pyFloat? t with
    | some q => .float q
    | none => .str t
  else
    match pyInt? t with
    | some n => .int n
    | none => .str t

/-- The second tokenizer pass over the stripped raw tokens: strip quoted
strings; fuse any token immediately followed by `"("` into a single
function-call marker (consuming both); otherwise `classify`. -/
def processTokens : List String → List Tok
  | [] => []
  | t :: rest =>
    if isQuotedTok t then .str (dropEnds t) :: processTokens rest
    else
      match rest with
      | next :: rest2 =>
        if next = "(" then .str (t ++ "(") :: processTokens rest2
        else classify t :: processTokens (next :: rest2)
      | [] => [classify t]

/-- `RuleEngine.tokenize`: empty input fails; otherwise raw scan, strip
each raw token, then the processing pass. -/
def tokenize (rule_string : String) : Except PyError (List Tok) :=
  if rule_string = "" then .error (.ruleErr "Empty rule string")
  else .ok (processTokens ((rawTokens rule_string.toList).map pyStrip))

/- ------------------------------------------------------------------
Operator table and syntax validation.
------------------------------------------------------------------ -/

/-- `self.operators`, in the source's insertion order (set once in
`__init__` and never mutated, hence modelled as a constant). -/
def operators : List (String × Operator) :=
  [("AND", .AND), ("OR", .OR), (">", .GT), ("<", .LT), ("=", .EQ),
   ("!=", .NE), (">=", .GTE), ("<=", .LTE), ("IN", .IN),
   ("NOT IN", .NOT_IN)]

/-- `self.operators[token]` as a partial lookup (`token in self.operators`
is its success; non-string tokens never match a string key). -/
def opLookup (t : Tok) : Option Operator :=
  match t with
  | .str s => List.lookup s operators
  | _ => none

/-- Python `token in self.operators`. -/
def isOpKey (t : Tok) : Bool := (opLookup t).isSome

/-- Python `tokens.index(token)`: index of the first element `==`-equal to
the token. -/
def idxOfTok (ts : List Tok) (t : Tok) : Nat := ts.findIdx (fun u => tokEq u t)

/-- The scan loop of `validate_rule_syntax`: the parenthesis stack (which
only ever holds `'('`, hence a depth counter) plus the operator
right-operand check, which looks up the first occurrence of the operator
token in the whole list. -/
def vrsLoop (all : List Tok) : List Tok → Nat → Except PyError Nat
  | [], depth => .ok depth
  | t :: rest, depth =>
    if t = .str "(" then vrsLoop all rest (depth + 1)
    else if t = .str ")" then
      if depth = 0 then .error (.ruleErr "Unmatched closing parenthesis")
      else vrsLoop all rest (depth - 1)
    else if isOpKey t then
      if all.length > idxOfTok all t + 1 then vrsLoop all rest depth
      else .error (.ruleErr ("Operator " ++ tokPyStr t ++ " missing right operand"))
    else vrsLoop all rest depth

/-- `RuleEngine.validate_rule_syntax`. -/
def validate_rule_syntax (tokens : List Tok) : Except PyError Unit :=
  match vrsLoop tokens tokens 0 with
  | .error e => .error e
  | .ok 0 => .ok ()
  | .ok _ => .error (.ruleErr "Unmatched opening parenthesis")

/- ------------------------------------------------------------------
Parser (`parse_expression`, `parse_function`, `create_rule`).
------------------------------------------------------------------ -/

/-- The parser's function-call-marker test:
`isinstance(token, str) and '(' in token`. -/
def isFnMarker (t : Tok) : Bool :=
  match t with
  | .str s => strHasChar s '('
  | _ => false

mutual
/-- Fuel-indexed `RuleEngine.parse_function`: strip the trailing `(`
from the marker token to get the function name, require it registered,
then collect arguments; the returned position is one past the consumed
`)` (or one past the end when the scan fell off the list, as in the
source).  A non-string or absent token at `pos` would raise a low-level
`TypeError`/`IndexError` in the source (unreachable: all callers
guard).  The zero-fuel arm mirrors Python's recursion limit; along any
chain of recursive calls the position strictly increases every two
calls, so the fuel the wrappers pass always suffices. -/
def parse_function_aux (eng : RuleEngine) (tokens : List Tok) :
    Nat → Nat → Except PyError (Node × Nat)
  | 0, _ => .error (.typeErr "maximum recursion depth exceeded")
  | fuel + 1, pos =>
    if h : pos < tokens.length then
      match tokens.get ⟨pos, h⟩ with
      | .str s =>
        let func_name := dropLastChar s
        if (List.lookup func_name eng.function_registry).isSome then
          match collect_args_aux eng tokens fuel (pos + 1) with
          | .error e => .error e
          | .ok (args, e) => .ok (.function func_name args, e + 1)
        else .error (.ruleErr ("Unknown function: " ++ func_name))
      | _ => .error (.typeErr "'int' object is not subscriptable")
    else .error (.typeErr "list index out of range")

/-- Fuel-indexed argument-collection loop of `parse_function`: scan
until a `)` token or the end of the list, skipping `,` tokens, recursing
into nested function markers, appending any other token as a literal
argument.  Returns the argument list and the position of the
terminating `)` (or the first position past the end). -/
def collect_args_aux (eng : RuleEngine) (tokens : List Tok) :
    Nat → Nat → Except PyError (List Arg × Nat)
  | 0, _ => .error (.typeErr "maximum recursion depth exceeded")
  | fuel + 1, pos =>
    if h : pos < tokens.length then
      let t := tokens.get ⟨pos, h⟩
      if t = .str ")" then .ok ([], pos)
      else if t = .str "," then collect_args_aux eng tokens fuel (pos + 1)
      else if isFnMarker t then
        match parse_function_aux eng tokens fuel pos with
        | .error e => .error e
        | .ok (n, p) =>
          match collect_args_aux eng tokens fuel p with
          | .error e => .error e
          | .ok (args, q) => .ok (.node n :: args, q)
      else
        match collect_args_aux eng tokens fuel (pos + 1) with
        | .error e => .error e
        | .ok (args, p) => .ok (.tok t :: args, p)
    else .ok ([], pos)
end

/-- `RuleEngine.parse_function` (fuel bound `2 * length + 4`, always
sufficient — see `parse_function_aux`). -/
def parse_function (eng : RuleEngine) (tokens : List Tok) (pos : Nat) :
    Except PyError (Node × Nat) :=
  parse_function_aux eng tokens (2 * tokens.length + 4) pos

/-- Fuel-indexed `RuleEngine.parse_expression`: parenthesized
expression, function call, or three-token comparison (whose field must
be a catalogued string); anything else is an invalid expression.  The
parenthesis recursion advances the position each step, so fuel
`length + 1` always suffices. -/
def parse_expression_aux (eng : RuleEngine) (tokens : List Tok) :
    Nat → Nat → Except PyError (Node × Nat)
  | 0, _ => .error (.typeErr "maximum recursion depth exceeded")
  | fuel + 1, pos =>
    if h : pos < tokens.length then
      let token := tokens.get ⟨pos, h⟩
      if token = .str "(" then
        match parse_expression_aux eng tokens fuel (pos + 1) with
        | .error e => .error e
        | .ok (node, next_pos) =>
          if tokens[next_pos]? = some (.str ")") then .ok (node, next_pos + 1)
          else .error (.ruleErr "Missing closing parenthesis")
      else if isFnMarker token then parse_function eng tokens pos
      else if h2 : pos + 2 < tokens.length then
        match opLookup (tokens.get ⟨pos + 1, by omega⟩) with
        | some op =>
          match token with
          | .str field =>
            if (List.lookup field eng.attribute_catalog).isSome then
              .ok (.comparison field op (tokens.get ⟨pos + 2, h2⟩), pos + 3)
            else .error (.attrErr ("Unknown attribute: " ++ field))
          | _ => .error (.attrErr ("Unknown attribute: " ++ tokPyStr token))
        | none =>
          .error (.ruleErr ("Invalid expression at position " ++
            toString pos ++ ": " ++ tokPyStr token))
      else
        .error (.ruleErr ("Invalid expression at position " ++
          toString pos ++ ": " ++ tokPyStr token))
    else .error (.ruleErr "Unexpected end of expression")

/-- `RuleEngine.parse_expression` (fuel bound `length + 1`, always
sufficient — see `parse_expression_aux`). -/
def parse_expression (eng : RuleEngine) (tokens : List Tok) (pos : Nat) :
    Except PyError (Node × Nat) :=
  parse_expression_aux eng tokens (tokens.length + 1) pos

/-- `RuleEngine.create_rule`: tokenize, structural syntax check, parse
one expression; if tokens remain and the next is `AND`/`OR`, parse
exactly one right-hand expression and combine (the right parse's final
position — and with it any trailing tokens — is discarded); tokens
remaining behind any other token are discarded silently. -/
def create_rule (eng : RuleEngine) (rule_string : String) :
    Except PyError Node :=
  match tokenize rule_string with
  | .error e => .error e
  | .ok tokens =>
    match validate_rule_syntax tokens with
    | .error e => .error e
    | .ok _ =>
      match parse_expression eng tokens 0 with
      | .error e => .error e
      | .ok (node, pos) =>
        match tokens[pos]? with
        | some next =>
          if next = .str "AND" ∨ next = .str "OR" then
            let op := if next = .str "AND" then Operator.AND else Operator.OR
            match parse_expression eng tokens (pos + 1) with
            | .error e => .error e
            | .ok (right_node, _) => .ok (.operator op node right_node)
          else .ok node
        | none => .ok node

/- ------------------------------------------------------------------
Attribute catalog validation (`validate_attribute`).
------------------------------------------------------------------ -/

/-- The `isinstance`/coercion step of `validate_attribute`: keep a value
already of the declared type, else apply the Python type constructor,
mapping any failure (the source's bare `except:`) to the attribute error
naming the expected type. -/
def coerceValue (dt : DType) (name : String) (v : Value) :
    Except PyError Value :=
  let fail : Except PyError Value :=
    .error (.attrErr ("Invalid type for " ++ name ++ ". Expected " ++ dt.name))
  match dt, v with
  | .intT, .intV n => .ok (.intV n)
  | .intT, .strV s =>
    match pyInt? s with
    | some n => .ok (.intV n)
    | none => fail
  | .intT, .floatV q => .ok (.intV (ratTrunc q))
  | .intT, _ => fail
  | .strT, .strV s => .ok (.strV s)
  | .strT, v => .ok (.strV (pyStr v))
  | .floatT, .floatV q => .ok (.floatV q)
  | .floatT, .intV n => .ok (.floatV n)
  | .floatT, .strV s =>
    match pyFloat? s with
    | some q => .ok (.floatV q)
    | none => fail
  | .floatT, _ => fail

/-- The constraint loop of `validate_attribute`, in dict insertion
order: `min` (fails when value < bound), `max` (fails when value >
bound), `pattern` (regular-expression match of the value's textual
form), `enum` (membership); keys matching none of the `if/elif` arms are
skipped. -/
def check_constraints (eng : RuleEngine) (name : String) (v : Value) :
    List (String × Value) → Except PyError Value
  | [] => .ok v
  | (ckey, cval) :: rest =>
    if ckey = "min" then
      match pyCompare v cval with
      | none => .error (.typeErr "'<' not supported between operand types")
      | some o =>
        if o = .lt then
          .error (.attrErr ("Value for " ++ name ++ " below minimum: " ++
            pyStr cval))
        else check_constraints eng name v rest
    else if ckey = "max" then
      match pyCompare v cval with
      | none => .error (.typeErr "'>' not supported between operand types")
      | some o =>
        if o = .gt then
          .error (.attrErr ("Value for " ++ name ++ " above maximum: " ++
            pyStr cval))
        else check_constraints eng name v rest
    else if ckey = "pattern" then
      match cval with
      | .strV p =>
        if eng.reMatch p (pyStr v) then check_constraints eng name v rest
        else
          .error (.attrErr ("Value for " ++ name ++
            " does not match pattern: " ++ p))
      | _ => .error (.typeErr "first argument must be string or compiled pattern")
    else if ckey = "enum" then
      match pyIn v cval with
      | .error e => .error e
      | .ok true => check_constraints eng name v rest
      | .ok false =>
        .error (.attrErr ("Value for " ++ name ++ " must be one of: " ++
          pyStr cval))
    else check_constraints eng name v rest

/-- `RuleEngine.validate_attribute`: unknown name fails; type
check/coercion; then the constraint loop (`if definition.constraints:`
skips `None` and the empty dict, which check nothing either way). -/
def validate_attribute (eng : RuleEngine) (name : String) (value : Value) :
    Except PyError Value :=
  match List.lookup name eng.attribute_catalog with
  | none => .error (.attrErr ("Unknown attribute: " ++ name))
  | some definition =>
    match coerceValue definition.data_type name value with
    | .error e => .error e
    | .ok v => check_constraints eng name v (definition.constraints.getD [])

/- ------------------------------------------------------------------
Function registry, engine construction, registration.
------------------------------------------------------------------ -/

/-- The `length` builtin (`len`): size of a string or list, `TypeError`
otherwise (including wrong arity). -/
def pyLen : List Value → Except PyError Value
  | [.strV s] => .ok (.intV s.toList.length)
  | [.listV vs] => .ok (.intV vs.length)
  | _ => .error (.typeErr "object has no len()")

/-- The built-in function registry (`length`, `today`, `lowercase`,
`uppercase`), with today's date an explicit input (see module comment). -/
def builtin_registry (today : Value) :
    List (String × (List Value → Except PyError Value)) :=
  [("length", pyLen),
   ("today", fun args =>
     match args with
     | [] => .ok today
     | _ => .error (.typeErr "takes 0 positional arguments")),
   ("lowercase", fun args =>
     match args with
     | [.strV s] => .ok (.strV (String.mk (s.toList.map Char.toLower)))
     | _ => .error (.typeErr "descriptor requires a str argument")),
   ("uppercase", fun args =>
     match args with
     | [.strV s] => .ok (.strV (pyUpper s))
     | _ => .error (.typeErr "descriptor requires a str argument"))]

/-- `RuleEngine.__init__`: empty catalog, built-in registry. -/
def RuleEngine.init (today : Value) (rm : String → String → Bool) : RuleEngine :=
  ⟨[], builtin_registry today, rm⟩

/-- `RuleEngine.register_attribute`: insert or overwrite by name. -/
def register_attribute (eng : RuleEngine) (d : AttributeDefinition) :
    RuleEngine :=
  { eng with attribute_catalog := (d.name, d) :: eng.attribute_catalog }

/-- `RuleEngine.register_function`: add or overwrite an entry. -/
def register_function (eng : RuleEngine) (name : String)
    (f : List Value → Except PyError Value) : RuleEngine :=
  { eng with function_registry := (name, f) :: eng.function_registry }

/- ------------------------------------------------------------------
Evaluator (`evaluate_function`, `evaluate_rule`).
------------------------------------------------------------------ -/

mutual
/-- `RuleEngine.evaluate_function`: resolve the arguments in order
(nested nodes recursively; a string argument naming a data-record key
becomes that record value; any other argument passes through literally),
then invoke the registered function.  A non-`FUNCTION` node reaches the
lookup with `function = None`, never a registry key. -/
def evaluate_function (eng : RuleEngine) (node : Node)
    (data : List (String × Value)) : Except PyError Value :=
  match node with
  | .function f args =>
    match List.lookup f eng.function_registry with
    | none => .error (.ruleErr ("Unknown function: " ++ f))
    | some fn =>
      match eval_args eng args data with
      | .error e => .error e
      | .ok vs => fn vs
  | _ => .error (.ruleErr "Unknown function: None")

/-- The argument-resolution loop of `evaluate_function`. -/
def eval_args (eng : RuleEngine) (args : List Arg)
    (data : List (String × Value)) : Except PyError (List Value) :=
  match args with
  | [] => .ok []
  | .tok t :: rest =>
    let v : Value :=
      match t with
      | .str s =>
        match List.lookup s data with
        | some dv => dv
        | none => .strV s
      | u => tokToValue u
    match eval_args eng rest data with
    | .error e => .error e
    | .ok vs => .ok (v :: vs)
  | .node n :: rest =>
    match evaluate_function eng n data with
    | .error e => .error e
    | .ok v =>
      match eval_args eng rest data with
      | .error e => .error e
      | .ok vs => .ok (v :: vs)
end

/-- Apply a comparison operator to the validated value and the node's
literal token (Python native ordering/equality; `IN`/`NOT IN` treat the
literal as a container).  `AND`/`OR` on a comparison node fall through
every arm of the source's `elif` chain to `return False`. -/
def apply_comparison (op : Operator) (value : Value) (lit : Tok) :
    Except PyError Bool :=
  let l := tokToValue lit
  match op with
  | .GT =>
    match pyCompare value l with
    | some o => .ok (o = .gt)
    | none => .error (.typeErr "'>' not supported between operand types")
  | .LT =>
    match pyCompare value l with
    | some o => .ok (o = .lt)
    | none => .error (.typeErr "'<' not supported between operand types")
  | .EQ => .ok (pyEq value l)
  | .NE => .ok (!pyEq value l)
  | .GTE =>
    match pyCompare value l with
    | some o => .ok (o ≠ .lt)
    | none => .error (.typeErr "'>=' not supported between operand types")
  | .LTE =>
    match pyCompare value l with
    | some o => .ok (o ≠ .gt)
    | none => .error (.typeErr "'<=' not supported between operand types")
  | .IN => pyIn value l
  | .NOT_IN =>
    match pyIn value l with
    | .ok b => .ok (!b)
    | .error e => .error e
  | _ => .ok false

/-- The `COMPARISON` branch of `evaluate_rule` before the broad
exception wrap: a field absent from the data record fails with the
required-attribute error when catalogued and required and otherwise
evaluates to `False`; a present field is validated, then compared. -/
def eval_comparison (eng : RuleEngine) (field : String) (op : Operator)
    (lit : Tok) (data : List (String × Value)) : Except PyError Bool :=
  match List.lookup field data with
  | none =>
    match List.lookup field eng.attribute_catalog with
    | some d =>
      if d.required then
        .error (.attrErr ("Required attribute missing: " ++ field))
      else .ok false
    | none => .ok false
  | some raw =>
    match validate_attribute eng field raw with
    | .error e => .error e
    | .ok value => apply_comparison op value lit

/-- The `except Exception` wrap at the top of every `evaluate_rule`
call: any failure is re-raised as a `RuleValidationError` whose message
prefixes the original message with the evaluation-error context. -/
def wrapEval (r : Except PyError Bool) : Except PyError Bool :=
  match r with
  | .ok b => .ok b
  | .error e => .error (.ruleErr ("Error evaluating rule: " ++ e.msg))

/-- `RuleEngine.evaluate_rule`: dispatch on the node kind — comparison;
logical operator (both children evaluated unconditionally, each child
evaluation being itself a fully wrapped `evaluate_rule` call, `AND`
conjunction, `OR` disjunction, anything else falling through to
`False`); function call (result coerced by truthiness).  The whole
dispatch runs inside the broad exception wrap. -/
def evaluate_rule (eng : RuleEngine) (node : Node)
    (data : List (String × Value)) : Except PyError Bool :=
  match node with
  | .comparison field op value =>
    wrapEval (eval_comparison eng field op value data)
  | .operator op left right =>
    wrapEval
      (match evaluate_rule eng left data with
      | .error e => .error e
      | .ok left_result =>
        match evaluate_rule eng right data with
        | .error e => .error e
        | .ok right_result =>
          match op with
          | .AND => .ok (left_result && right_result)
          | .OR => .ok (left_result || right_result)
          | _ => .ok false)
  | .function f args =>
    wrapEval
      (match evaluate_function eng (.function f args) data with
      | .error e => .error e
      | .ok v => .ok (truthy v))

/-- The dispatch body of `evaluate_rule` without its own exception wrap
(child evaluations remain full wrapped `evaluate_rule` calls, exactly as
the source recursion has them). -/
def eval_dispatch (eng : RuleEngine) (node : Node)
    (data : List (String × Value)) : Except PyError Bool :=
  match node with
  | .comparison field op value => eval_comparison eng field op value data
  | .operator op left right =>
    (match evaluate_rule eng left data with
    | .error e => .error e
    | .ok left_result =>
      match evaluate_rule eng right data with
      | .error e => .error e
      | .ok right_result =>
        match op with
        | .AND => .ok (left_result && right_result)
        | .OR => .ok (left_result || right_result)
        | _ => .ok false)
  | .function f args =>
    (match evaluate_function eng (.function f args) data with
    | .error e => .error e
    | .ok v => .ok (truthy v))

/-- Every `evaluate_rule` call is its dispatch body inside the wrap. -/
theorem evaluate_rule_eq_wrap (eng : RuleEngine) (node : Node)
    (data : List (String × Value)) :
    evaluate_rule eng node data = wrapEval (eval_dispatch eng node data) := by
  cases node <;> rfl

/- ------------------------------------------------------------------
Concrete engines for the spec's scenarios.
------------------------------------------------------------------ -/

deriving instance DecidableEq for Except

/-- `age : int [min=0, max=120]` from the repository's test scenario. -/
def ageDef : AttributeDefinition :=
  { name := "age", data_type := .intT,
    constraints := some [("min", .intV 0), ("max", .intV 120)] }

/-- `department : str [enum = {Sales, Marketing, Engineering}]`. -/
def departmentDef : AttributeDefinition :=
  { name := "department", data_type := .strT,
    constraints := some [("enum",
      .listV [.strV "Sales", .strV "Marketing", .strV "Engineering"])] }

/-- A plain engine as `RuleEngine()` constructs it (wall clock and the
regex oracle fixed arbitrarily; nothing proved below depends on them). -/
def defaultEngine : RuleEngine := RuleEngine.init (.dateV 0) fun _ _ => false

/-- The engine of the test scenario: `age` and `department` registered. -/
def testEngine : RuleEngine :=
  register_attribute (register_attribute defaultEngine ageDef) departmentDef

/-- An engine with `status : str` registered. -/
def statusEngine : RuleEngine :=
  register_attribute defaultEngine { name := "status", data_type := .strT }

/- ------------------------------------------------------------------
Claims.
------------------------------------------------------------------ -/

/-- C1: with `age:int[min=0,max=120]` and
`department:str[enum={Sales,Marketing,Engineering}]` registered,
`create_rule "age > 30 AND department = 'Sales'"` succeeds, and
evaluating the resulting AST returns `true` for
`{age: 35, department: "Sales"}`, `false` for
`{age: 20, department: "Sales"}`, and for
`{age: 35, department: "Support"}` fails with a rule-evaluation error
whose message carries the enum-violation attribute failure. -/
theorem c1_scenario :
    ∃ ast,
      create_rule testEngine "age > 30 AND department = 'Sales'" = .ok ast ∧
      evaluate_rule testEngine ast
        [("age", .intV 35), ("department", .strV "Sales")] = .ok true ∧
      evaluate_rule testEngine ast
        [("age", .intV 20), ("department", .strV "Sales")] = .ok false ∧
      evaluate_rule testEngine ast
        [("age", .intV 35), ("department", .strV "Support")] =
        .error (.ruleErr ("Error evaluating rule: Error evaluating rule: " ++
          "Value for department must be one of: " ++
          "['Sales', 'Marketing', 'Engineering']")) :=
  ⟨.operator .AND (.comparison "age" .GT (.int 30))
      (.comparison "department" .EQ (.str "Sales")),
    rfl, rfl, rfl, rfl⟩

/-- C2 (code bug): `create_rule "length(name) > 5"` does not succeed —
tokenization fuses `length` with the following `(` into the marker
`"length("`, leaving a bare `)` that the parenthesis-balance check then
rejects, so rule creation fails with "Unmatched closing parenthesis" and
the function rule can never be evaluated.  (The spec's scenario expects
success, with `{name: "Alexander"} → true` and `{name: "Bob"} → false`.) -/
theorem c2_function_rule_fails :
    tokenize "length(name) > 5" =
      .ok [.str "length(", .str "name", .str ")", .str ">", .int 5] ∧
    create_rule defaultEngine "length(name) > 5" =
      .error (.ruleErr "Unmatched closing parenthesis") :=
  ⟨rfl, rfl⟩

/-- C3 (code bug): with `status` registered,
`create_rule "status IN (\"active\", \"pending\")"` does not succeed —
the operator token `IN` is fused with the following `(` into the marker
token `"IN("`, leaving a bare `)` that the parenthesis-balance check
rejects, so rule creation fails before any evaluation.  (The spec's
scenario expects success, with `{status: "active"} → true` and
`{status: "closed"} → false`.) -/
theorem c3_membership_rule_fails :
    tokenize "status IN (\"active\", \"pending\")" =
      .ok [.str "status", .str "IN(", .str "active", .str ",",
           .str "pending", .str ")"] ∧
    create_rule statusEngine "status IN (\"active\", \"pending\")" =
      .error (.ruleErr "Unmatched closing parenthesis") :=
  ⟨rfl, rfl⟩

/-- C4: a logical `AND` node evaluates to the conjunction and an `OR`
node to the disjunction of the two child results whenever both children
evaluate; both children are evaluated unconditionally, so a failure of
the right child propagates (wrapped by the evaluation-error context)
even when the left child already returned `false` (for `AND`) or `true`
(for `OR`). -/
theorem c4_logical_no_short_circuit (eng : RuleEngine) (l r : Node)
    (data : List (String × Value)) :
    (∀ lr rr, evaluate_rule eng l data = .ok lr →
      evaluate_rule eng r data = .ok rr →
      evaluate_rule eng (.operator .AND l r) data = .ok (lr && rr) ∧
      evaluate_rule eng (.operator .OR l r) data = .ok (lr || rr)) ∧
    (∀ e, evaluate_rule eng r data = .error e →
      (evaluate_rule eng l data = .ok false →
        evaluate_rule eng (.operator .AND l r) data =
          .error (.ruleErr ("Error evaluating rule: " ++ e.msg))) ∧
      (evaluate_rule eng l data = .ok true →
        evaluate_rule eng (.operator .OR l r) data =
          .error (.ruleErr ("Error evaluating rule: " ++ e.msg)))) := by
  constructor
  · intro lr rr hl hr
    constructor <;> simp [evaluate_rule, hl, hr, wrapEval]
  · intro e he
    constructor <;> intro hl <;> simp [evaluate_rule, hl, he, wrapEval]

/-- Witness for C4 at concrete inputs: under the test catalog, with
`{age: 20, department: "Support"}`, the left child `age > 30` is
`false`, yet the AND node still fails with the wrapped enum violation
raised by the right child `department = 'Sales'`. -/
theorem c4_witness :
    evaluate_rule testEngine (.comparison "age" .GT (.int 30))
      [("age", .intV 20), ("department", .strV "Support")] = .ok false ∧
    evaluate_rule testEngine
      (.operator .AND (.comparison "age" .GT (.int 30))
        (.comparison "department" .EQ (.str "Sales")))
      [("age", .intV 20), ("department", .strV "Support")] =
      .error (.ruleErr ("Error evaluating rule: " ++
        ("Error evaluating rule: Value for department must be one of: " ++
         "['Sales', 'Marketing', 'Engineering']"))) := by
  refine ⟨rfl, ?_⟩
  exact ((c4_logical_no_short_circuit testEngine
    (.comparison "age" .GT (.int 30))
    (.comparison "department" .EQ (.str "Sales"))
    [("age", .intV 20), ("department", .strV "Support")]).2
    (.ruleErr ("Error evaluating rule: Value for department must be one of: " ++
      "['Sales', 'Marketing', 'Engineering']")) rfl).1 rfl

/-- C5: evaluating a comparison whose field is absent from the data
record fails — with the "Required attribute missing" attribute error,
surfaced through the evaluation wrap — when the field is catalogued and
marked required, and returns `false` without failing when the field is
not catalogued or is catalogued with `required` unset. -/
theorem c5_missing_field (eng : RuleEngine) (field : String) (op : Operator)
    (lit : Tok) (data : List (String × Value))
    (habs : List.lookup field data = none) :
    (∀ d, List.lookup field eng.attribute_catalog = some d →
      d.required = true →
      eval_dispatch eng (.comparison field op lit) data =
        .error (.attrErr ("Required attribute missing: " ++ field)) ∧
      evaluate_rule eng (.comparison field op lit) data =
        .error (.ruleErr ("Error evaluating rule: " ++
          ("Required attribute missing: " ++ field)))) ∧
    (List.lookup field eng.attribute_catalog = none →
      evaluate_rule eng (.comparison field op lit) data = .ok false) ∧
    (∀ d, List.lookup field eng.attribute_catalog = some d →
      d.required = false →
      evaluate_rule eng (.comparison field op lit) data = .ok false) := by
  refine ⟨?_, ?_, ?_⟩
  · intro d hd hreq
    constructor <;>
      simp [evaluate_rule, eval_dispatch, eval_comparison, habs, hd, hreq,
        wrapEval, PyError.msg]
  · intro hnone
    simp [evaluate_rule, eval_comparison, habs, hnone, wrapEval]
  · intro d hd hreq
    simp [evaluate_rule, eval_comparison, habs, hd, hreq, wrapEval]

/-- Witness for C5: the empty record is missing `age` (catalogued,
required by default) — evaluation fails with the wrapped
required-attribute error; it is also missing `years` (not catalogued at
all) — evaluation returns `false`. -/
theorem c5_witness :
    List.lookup "age" ([] : List (String × Value)) = none ∧
    evaluate_rule testEngine (.comparison "age" .GT (.int 30)) [] =
      .error (.ruleErr ("Error evaluating rule: " ++
        ("Required attribute missing: " ++ "age"))) ∧
    evaluate_rule defaultEngine (.comparison "years" .GT (.int 30)) [] =
      .ok false := by
  refine ⟨rfl, ?_, ?_⟩
  · exact ((c5_missing_field testEngine "age" .GT (.int 30) [] rfl).1
      ageDef rfl rfl).2
  · exact (c5_missing_field defaultEngine "years" .GT (.int 30) [] rfl).2.1 rfl

/-- C6: every failure of `evaluate_rule` reaches the caller as the
single rule-evaluation error kind (`RuleValidationError`), whose message
is the original dispatch failure's message behind the evaluation-error
context prefix; the original failure's kind (syntax versus attribute) is
not observable in the result. -/
theorem c6_error_collapse (eng : RuleEngine) (node : Node)
    (data : List (String × Value)) :
    ∀ e, evaluate_rule eng node data = .error e →
      ∃ e₀, eval_dispatch eng node data = .error e₀ ∧
        e = .ruleErr ("Error evaluating rule: " ++ e₀.msg) := by
  intro e he
  rw [evaluate_rule_eq_wrap] at he
  cases h : eval_dispatch eng node data with
  | ok b => rw [h] at he; simp [wrapEval] at he
  | error e₀ =>
    rw [h] at he
    simp [wrapEval] at he
    exact ⟨e₀, rfl, he.symm⟩

/-- Witness for C6 at a concrete failing evaluation (the attribute
error for the missing required `age` is collapsed to a wrapped
rule-evaluation error). -/
theorem c6_witness :
    ∃ e₀, eval_dispatch testEngine (.comparison "age" .GT (.int 30)) [] =
        .error e₀ ∧
      PyError.ruleErr ("Error evaluating rule: " ++
          ("Required attribute missing: " ++ "age")) =
        .ruleErr ("Error evaluating rule: " ++ e₀.msg) :=
  c6_error_collapse testEngine (.comparison "age" .GT (.int 30)) []
    (.ruleErr ("Error evaluating rule: " ++
      ("Required attribute missing: " ++ "age"))) rfl

/-- One `min` step of the constraint loop on integers: fail below the
bound, otherwise continue. -/
theorem check_constraints_min (eng : RuleEngine) (name : String) (v b : Int)
    (rest : List (String × Value)) :
    check_constraints eng name (.intV v) (("min", .intV b) :: rest) =
      if v < b then
        .error (.attrErr ("Value for " ++ name ++ " below minimum: " ++
          pyStr (.intV b)))
      else check_constraints eng name (.intV v) rest := by
  rcases lt_trichotomy v b with h | h | h
  · simp [check_constraints, pyCompare, cmp3, h]
  · subst h
    simp [check_constraints, pyCompare, cmp3, lt_irrefl]
  · have h1 : ¬ v < b := by omega
    simp [check_constraints, pyCompare, cmp3, h, h1]

/-- One `max` step of the constraint loop on integers: fail above the
bound, otherwise continue. -/
theorem check_constraints_max (eng : RuleEngine) (name : String) (v b : Int)
    (rest : List (String × Value)) :
    check_constraints eng name (.intV v) (("max", .intV b) :: rest) =
      if b < v then
        .error (.attrErr ("Value for " ++ name ++ " above maximum: " ++
          pyStr (.intV b)))
      else check_constraints eng name (.intV v) rest := by
  rcases lt_trichotomy v b with h | h | h
  · have h1 : ¬ b < v := by omega
    simp [check_constraints, pyCompare, cmp3, h, h1]
  · subst h
    simp [check_constraints, pyCompare, cmp3, lt_irrefl]
  · have h1 : ¬ v < b := by omega
    simp [check_constraints, pyCompare, cmp3, h, h1]

/-- On a constraint list consisting only of integer `min`/`max` bounds,
the constraint loop keeps an integer value exactly when every `min`
bound is at most the value and the value is at most every `max` bound;
and its only other outcome is an attribute error. -/
theorem check_constraints_int_bounds (eng : RuleEngine) (name : String)
    (v : Int) :
    ∀ cs : List (String × Value),
      (∀ p ∈ cs, (p.1 = "min" ∨ p.1 = "max") ∧ ∃ b : Int, p.2 = .intV b) →
      (check_constraints eng name (.intV v) cs = .ok (.intV v) ↔
        ∀ p ∈ cs, ∀ b : Int, p.2 = .intV b →
          (p.1 = "min" → b ≤ v) ∧ (p.1 = "max" → v ≤ b)) ∧
      (check_constraints eng name (.intV v) cs = .ok (.intV v) ∨
        ∃ m, check_constraints eng name (.intV v) cs = .error (.attrErr m)) := by
  intro cs
  induction cs with
  | nil => exact fun _ => ⟨by simp [check_constraints], Or.inl rfl⟩
  | cons p rest ih =>
    intro hcs
    obtain ⟨k, cv⟩ := p
    obtain ⟨hk, b, hb⟩ := hcs (k, cv) (List.mem_cons_self _ _)
    simp only at hk hb
    subst hb
    have hrest := fun q hq => hcs q (List.mem_cons_of_mem _ hq)
    obtain ⟨ih1, ih2⟩ := ih hrest
    rcases hk with hk | hk <;> subst hk
    · rw [check_constraints_min]
      by_cases hv : v < b
      · rw [if_pos hv]
        constructor
        · constructor
          · intro h
            exact absurd h (by simp)
          · intro hall
            exact absurd ((hall ("min", .intV b) (List.mem_cons_self _ _) b
              rfl).1 rfl) (by omega)
        · exact Or.inr ⟨_, rfl⟩
      · rw [if_neg hv]
        refine ⟨?_, ih2⟩
        rw [ih1]
        constructor
        · intro hr q hq b' hb'
          rcases List.mem_cons.mp hq with rfl | hq'
          · injection hb' with hb''
            subst hb''
            exact ⟨fun _ => by omega, fun hmax => by simp at hmax⟩
          · exact hr q hq' b' hb'
        · exact fun hall q hq => hall q (List.mem_cons_of_mem _ hq)
    · rw [check_constraints_max]
      by_cases hv : b < v
      · rw [if_pos hv]
        constructor
        · constructor
          · intro h
            exact absurd h (by simp)
          · intro hall
            exact absurd ((hall ("max", .intV b) (List.mem_cons_self _ _) b
              rfl).2 rfl) (by omega)
        · exact Or.inr ⟨_, rfl⟩
      · rw [if_neg hv]
        refine ⟨?_, ih2⟩
        rw [ih1]
        constructor
        · intro hr q hq b' hb'
          rcases List.mem_cons.mp hq with rfl | hq'
          · injection hb' with hb''
            subst hb''
            exact ⟨fun hmin => by simp at hmin, fun _ => by omega⟩
          · exact hr q hq' b' hb'
        · exact fun hall q hq => hall q (List.mem_cons_of_mem _ hq)

/-- C7: for an attribute registered with integer `min`/`max` constraints,
`validate_attribute` returns an integer value unchanged exactly when it
lies within every bound inclusively, fails with an attribute error as
soon as it is strictly below a `min` or strictly above a `max`, and
treats a string coercible to `int` exactly as the coerced integer. -/
theorem c7_min_max_bounds (eng : RuleEngine) (name : String)
    (d : AttributeDefinition) (cs : List (String × Value)) (v : Int)
    (hlook : List.lookup name eng.attribute_catalog = some d)
    (hdt : d.data_type = .intT)
    (hc : d.constraints = some cs)
    (hcs : ∀ p ∈ cs, (p.1 = "min" ∨ p.1 = "max") ∧ ∃ b : Int, p.2 = .intV b) :
    (validate_attribute eng name (.intV v) = .ok (.intV v) ↔
      ∀ p ∈ cs, ∀ b : Int, p.2 = .intV b →
        (p.1 = "min" → b ≤ v) ∧ (p.1 = "max" → v ≤ b)) ∧
    ((∃ p ∈ cs, ∃ b : Int, p.2 = .intV b ∧
        ((p.1 = "min" ∧ v < b) ∨ (p.1 = "max" ∧ b < v))) →
      ∃ m, validate_attribute eng name (.intV v) = .error (.attrErr m)) ∧
    (∀ s : String, pyInt? s = some v →
      validate_attribute eng name (.strV s) =
        validate_attribute eng name (.intV v)) := by
  have hval : validate_attribute eng name (.intV v) =
      check_constraints eng name (.intV v) cs := by
    simp [validate_attribute, hlook, hdt, hc, coerceValue]
  obtain ⟨h1, h2⟩ := check_constraints_int_bounds eng name v cs hcs
  refine ⟨by rw [hval]; exact h1, ?_, ?_⟩
  · rintro ⟨p, hp, b, hb, hviol⟩
    rw [hval]
    rcases h2 with hok | ⟨m, herr⟩
    · exfalso
      obtain ⟨hmin, hmax⟩ := h1.mp hok p hp b hb
      rcases hviol with ⟨hk, hlt⟩ | ⟨hk, hgt⟩
      · exact absurd (hmin hk) (by omega)
      · exact absurd (hmax hk) (by omega)
    · exact ⟨m, herr⟩
  · intro s hs
    rw [hval]
    simp [validate_attribute, hlook, hdt, hc, coerceValue, hs]

/-- Witness for C7 on `age : int [min=0, max=120]`: `0` and `120` are
accepted unchanged, `121` and `-1` are rejected with attribute errors. -/
theorem c7_witness :
    validate_attribute testEngine "age" (.intV 0) = .ok (.intV 0) ∧
    validate_attribute testEngine "age" (.intV 120) = .ok (.intV 120) ∧
    (∃ m, validate_attribute testEngine "age" (.intV 121) =
      .error (.attrErr m)) ∧
    (∃ m, validate_attribute testEngine "age" (.intV (-1)) =
      .error (.attrErr m)) := by
  have hcs : ∀ p ∈ [("min", Value.intV 0), ("max", Value.intV 120)],
      (p.1 = "min" ∨ p.1 = "max") ∧ ∃ b : Int, p.2 = .intV b := by
    intro p hp
    rcases List.mem_cons.mp hp with rfl | hp'
    · exact ⟨Or.inl rfl, 0, rfl⟩
    rcases List.mem_cons.mp hp' with rfl | hp''
    · exact ⟨Or.inr rfl, 120, rfl⟩
    · exact absurd hp'' (List.not_mem_nil p)
  refine ⟨rfl, rfl, ?_, ?_⟩
  · exact (c7_min_max_bounds testEngine "age" ageDef _ 121 rfl rfl rfl
      hcs).2.1 ⟨("max", .intV 120),
        List.mem_cons_of_mem _ (List.mem_cons_self _ _), 120, rfl,
        Or.inr ⟨rfl, by omega⟩⟩
  · exact (c7_min_max_bounds testEngine "age" ageDef _ (-1) rfl rfl rfl
      hcs).2.1 ⟨("min", .intV 0), List.mem_cons_self _ _, 0, rfl,
        Or.inl ⟨rfl, by omega⟩⟩

/-- Bare-parenthesis balance of a processed token stream: the usual
depth scan over `"("` and `")"` tokens, rejecting a close at depth zero
and a nonzero depth at the end.  (Defined independently of
`validate_rule_syntax`; in particular it has no operator check.) -/
def parenScan : List Tok → Nat → Bool
  | [], d => d == 0
  | t :: ts, d =>
    if t = .str "(" then parenScan ts (d + 1)
    else if t = .str ")" then
      if d = 0 then false else parenScan ts (d - 1)
    else parenScan ts d

/-- If the bare-parenthesis scan rejects a suffix at some depth, the
validation loop on that suffix at the same depth either raises a
rule-validation error or finishes at a nonzero depth. -/
theorem vrsLoop_of_parenScan_false (all : List Tok) :
    ∀ ts d, parenScan ts d = false →
      (∃ m, vrsLoop all ts d = .error (.ruleErr m)) ∨
      (∃ k, vrsLoop all ts d = .ok k ∧ k ≠ 0) := by
  intro ts
  induction ts with
  | nil =>
    intro d hd
    simp [parenScan] at hd
    exact Or.inr ⟨d, rfl, hd⟩
  | cons t rest ih =>
    intro d hd
    by_cases h1 : t = .str "("
    · subst h1
      simp only [parenScan, if_pos rfl] at hd
      rcases ih (d + 1) hd with h | h
      · left
        simpa [vrsLoop] using h
      · right
        simpa [vrsLoop] using h
    · by_cases h2 : t = .str ")"
      · subst h2
        by_cases h3 : d = 0
        · subst h3
          exact Or.inl ⟨"Unmatched closing parenthesis", by simp [vrsLoop]⟩
        · simp only [parenScan, h1, h3, if_neg, if_pos rfl, ite_false] at hd
          have hd' : parenScan rest (d - 1) = false := by
            simpa [h3] using hd
          rcases ih (d - 1) hd' with h | h
          · left
            simpa [vrsLoop, h1, h3] using h
          · right
            simpa [vrsLoop, h1, h3] using h
      · have hd' : parenScan rest d = false := by
          simpa [parenScan, h1, h2] using hd
        by_cases hop : isOpKey t
        · by_cases hidx : all.length > idxOfTok all t + 1
          · rcases ih d hd' with h | h
            · left
              simpa [vrsLoop, h1, h2, hop, hidx] using h
            · right
              simpa [vrsLoop, h1, h2, hop, hidx] using h
          · left
            exact ⟨"Operator " ++ tokPyStr t ++ " missing right operand",
              by simp [vrsLoop, h1, h2, hop, hidx]⟩
        · rcases ih d hd' with h | h
          · left
            simpa [vrsLoop, h1, h2, hop] using h
          · right
            simpa [vrsLoop, h1, h2, hop] using h

/-- C8 counterexample: the rule string `"length ( name"` contains an
unmatched `'('` character (one `'('`, no `')'`), yet `create_rule`
succeeds and returns a function-call node — tokenization fused the
parenthesis into the marker `"length("`, so structural validation saw
no parenthesis token at all and no error was raised anywhere. -/
theorem c8_counterexample :
    ("length ( name".toList.count '(' = 1 ∧
      "length ( name".toList.count ')' = 0) ∧
    create_rule defaultEngine "length ( name" =
      .ok (.function "length" [.tok (.str "name")]) :=
  ⟨by decide, rfl⟩

/-- C8 (amended): whenever the processed token stream retains unmatched
bare parenthesis tokens — the depth scan over `"("`/`")"` tokens fails —
`validate_rule_syntax` raises a rule-validation error, so `create_rule`
on any rule string tokenizing to that stream fails before any parsing or
evaluation.  (This restricts the claim to parentheses surviving
tokenization as bare tokens; the counterexample shows a `'('` fused into
a function-call marker escaping the check entirely.) -/
theorem c8_unbalanced_parens_fail (eng : RuleEngine) (s : String)
    (ts : List Tok) (htok : tokenize s = .ok ts)
    (hbal : parenScan ts 0 = false) :
    (∃ m, validate_rule_syntax ts = .error (.ruleErr m)) ∧
    (∃ m, create_rule eng s = .error (.ruleErr m)) := by
  have hv : ∃ m, validate_rule_syntax ts = .error (.ruleErr m) := by
    rcases vrsLoop_of_parenScan_false ts ts 0 hbal with ⟨m, hm⟩ | ⟨k, hk, hk0⟩
    · exact ⟨m, by simp [ validate_rule_syntax, hm]⟩
    · refine ⟨"Unmatched opening parenthesis", ?_⟩
      cases k with
      | zero => exact absurd rfl hk0
      | succ n => simp [ validate_rule_syntax, hk]
  obtain ⟨m, hm⟩ := hv
  refine ⟨⟨m, hm⟩, ⟨m, ?_⟩⟩
  simp [create_rule, htok, hm]

/-- Witness for the amended C8 at the concrete rule string `")"`. -/
theorem c8_witness :
    tokenize ")" = .ok [.str ")"] ∧
    parenScan [.str ")"] 0 = false ∧
    (∃ m, validate_rule_syntax [.str ")"] = .error (.ruleErr m)) ∧
    (∃ m, create_rule defaultEngine ")" = .error (.ruleErr m)) := by
  have h := c8_unbalanced_parens_fail defaultEngine ")" [.str ")"] rfl rfl
  exact ⟨rfl, rfl, h.1, h.2⟩

/-- C9: the tokenizer's fusion step fuses ANY unquoted raw token with an
immediately following `"("` into a single marker token — in general
`processTokens (t :: "(" :: rest) = (t ++ "(") :: processTokens rest` —
so in particular the operator token `IN` followed by `(` becomes the
token `"IN("` and `(` followed by `(` becomes the token `"(("`:
operator and parenthesis tokens are turned into function-call markers
and removed from the plain token stream. -/
theorem c9_fusion_any_token (t : String) (rest : List String)
    (hq : isQuotedTok t = false) :
    processTokens (t :: "(" :: rest) =
      .str (t ++ "(") :: processTokens rest ∧
    tokenize "status IN (x)" =
      .ok [.str "status", .str "IN(", .str "x", .str ")"] ∧
    tokenize "( (" = .ok [.str "(("] := by
  refine ⟨?_, rfl, rfl⟩
  simp [processTokens, hq]

/-- Witness for C9: the raw token `IN` is not quoted, and the processing
pass fuses it with the following `(`. -/
theorem c9_witness :
    isQuotedTok "IN" = false ∧
    processTokens ["IN", "(", ")"] = .str "IN(" :: processTokens [")"] :=
  ⟨rfl, (c9_fusion_any_token "IN" [")"] rfl).1⟩

/-- C10: when parsing the first expression stops at a position still
inside the token list, `create_rule` raises no error about the leftover
tokens: if the token at that position is not `AND`/`OR` it returns the
first expression's node and silently discards every remaining token; if
it is `AND`/`OR` it parses exactly one right-hand expression and
silently discards anything after it (the right parse's final position
`rpos` is ignored). -/
theorem c10_trailing_tokens_discarded (eng : RuleEngine) (s : String)
    (tokens : List Tok) (n : Node) (pos : Nat)
    (htok : tokenize s = .ok tokens)
    (hval : validate_rule_syntax tokens = .ok ())
    (hparse : parse_expression eng tokens 0 = .ok (n, pos))
    (hlt : pos < tokens.length) :
    (tokens.get ⟨pos, hlt⟩ ≠ .str "AND" → tokens.get ⟨pos, hlt⟩ ≠ .str "OR" →
      create_rule eng s = .ok n) ∧
    (∀ rn rpos, tokens.get ⟨pos, hlt⟩ = .str "AND" →
      parse_expression eng tokens (pos + 1) = .ok (rn, rpos) →
      create_rule eng s = .ok (.operator .AND n rn)) ∧
    (∀ rn rpos, tokens.get ⟨pos, hlt⟩ = .str "OR" →
      parse_expression eng tokens (pos + 1) = .ok (rn, rpos) →
      create_rule eng s = .ok (.operator .OR n rn)) := by
  have hsome : tokens[pos]? = some (tokens.get ⟨pos, hlt⟩) := by
    rw [List.getElem?_eq_getElem hlt, List.get_eq_getElem]
  refine ⟨?_, ?_, ?_⟩
  · intro h1 h2
    rw [List.get_eq_getElem] at h1 h2
    simp [create_rule, htok, hval, hparse, hsome, h1, h2]
  · intro rn rpos hAND hr
    rw [List.get_eq_getElem] at hAND
    simp [create_rule, htok, hval, hparse, hsome, hAND, hr]
  · intro rn rpos hOR hr
    rw [List.get_eq_getElem] at hOR
    simp [create_rule, htok, hval, hparse, hsome, hOR, hr]

/-- Witness for C10: `"age > 30 age"` parses its first expression up to
position 3; the token there is the plain token `"age"`, not `AND`/`OR`,
and `create_rule` returns just the comparison node, silently discarding
the trailing token. -/
theorem c10_witness :
    tokenize "age > 30 age" =
      .ok [.str "age", .str ">", .int 30, .str "age"] ∧
    parse_expression testEngine
      [.str "age", .str ">", .int 30, .str "age"] 0 =
      .ok (.comparison "age" .GT (.int 30), 3) ∧
    create_rule testEngine "age > 30 age" =
      .ok (.comparison "age" .GT (.int 30)) := by
  refine ⟨rfl, rfl, ?_⟩
  exact (c10_trailing_tokens_discarded testEngine "age > 30 age"
    [.str "age", .str ">", .int 30, .str "age"]
    (.comparison "age" .GT (.int 30)) 3 rfl rfl rfl (by decide)).1
    (by decide) (by decide)
